import Mathlib

/-!
Verification of the batch core of the `danking/hail` repository.

Each definition in this file is a shallow embedding of a Python function of
the repository (file and line references are given in the doc comments).
Machine integers are modelled by `Nat`/`Int`, SQL tables by lists of rows,
and fallible code by `Except`.  Components of the repository that are only
referenced from the embedded files (stored procedures, `batch/utils.py`,
`batch/globals.py`, `front_end/validate.py`, `front_end/pool_selector.py`,
`worker_config.py`) are modelled from the specification; every such
definition is marked `Modelled from the spec:` in its doc comment.
-/

set_option autoImplicit false

namespace HailBatch

/-- Errors raised by the front-end request handlers (`aiohttp.web` HTTP
exceptions).  `badRequest` carries the `reason`/`text` string. -/
inductive HttpError where
  | notFound : HttpError
  | badRequest (reason : String) : HttpError
  | forbidden (reason : String) : HttpError
  | internalError (msg : String) : HttpError
  deriving Repr, DecidableEq

/-- HTTP status code of an error response. -/
def HttpError.status : HttpError → Nat
  | .notFound => 404
  | .badRequest _ => 400
  | .forbidden _ => 403
  | .internalError _ => 500

/-! ## Batch records and `batch_record_to_dict`
(`src/batch/batch/batch.py`, lines 33-70) -/

/-- A row of the `batches` table, restricted to the columns that
`batch_record_to_dict` reads for `state` and `complete`
(`batch.py:33-58`). -/
structure BatchRecord where
  id : Nat
  closed : Bool
  n_jobs : Nat
  n_completed : Nat
  n_succeeded : Nat
  n_failed : Nat
  n_cancelled : Nat
  deriving Repr, DecidableEq

/-- The `state` and `complete` fields of the dictionary built by
`batch_record_to_dict` (`batch.py:33-58`). -/
structure BatchStatusDict where
  state : String
  complete : Bool
  deriving Repr, DecidableEq

/-- Embedding of `batch_record_to_dict` (`batch.py:33-58`), restricted to the
computed `state` and `complete` fields (the remaining fields of the returned
dictionary are copies of the record's columns). -/
def batch_record_to_dict (record : BatchRecord) : BatchStatusDict :=
  let state :=
    if ¬ record.closed then ("open")
    else if record.n_failed > 0 then ("failure")
    else if record.n_cancelled > 0 then ("cancelled")
    else if record.closed ∧ record.n_succeeded = record.n_jobs then ("success")
    else ("running")
  let complete := record.closed ∧ record.n_completed = record.n_jobs
  { state := state, complete := decide complete }

/-! ## Storage rounding (`src/batch/batch/inst_coll_config.py`, lines 33-38) -/

/-- Modelled from the spec: `round_storage_bytes_to_gib` lives in
`batch/utils.py`, which is not part of the sources; the spec says the
"number of bytes in storage request is rounded up to whole gibibytes", so we
model it as ceiling division by 2^30. -/
def round_storage_bytes_to_gib (storage_bytes : Nat) : Nat :=
  (storage_bytes + 2 ^ 30 - 1) / 2 ^ 30

/-- Embedding of `requested_storage_bytes_to_actual_storage_gib`
(`inst_coll_config.py:33-38`).  `max_persistent_ssd_size_gib` is the constant
`MAX_PERSISTENT_SSD_SIZE_GIB` from `batch/globals.py` (not in the sources),
kept as a parameter. -/
def requested_storage_bytes_to_actual_storage_gib
    (max_persistent_ssd_size_gib : Nat) (storage_bytes : Nat) : Option Nat :=
  if storage_bytes > max_persistent_ssd_size_gib * 1024 ^ 3 then none
  else if storage_bytes = 0 then some storage_bytes
  else some (max 10 (round_storage_bytes_to_gib storage_bytes))

/-! ## Attempt ids (`src/batch/batch/batch.py`, line 346) -/

/-- The alphabet `'abcdefghijklmnopqrstuvwxyz0123456789'` that
`schedule_job` draws attempt-id characters from (`batch.py:346`). -/
def attempt_id_chars : List Char :=
  String.toList ("abcdefghijklmnopqrstuvwxyz0123456789")

/-- Embedding of
`''.join([secrets.choice('abcdefghijklmnopqrstuvwxyz0123456789') for _ in range(6)])`
(`batch.py:346`).  The cryptographic random source is modelled as a stream
`rand` of indices into the alphabet; a call that starts at stream position
`pos` consumes draws `pos`, `pos+1`, ..., `pos+5`, so distinct schedulings
of a job consume disjoint segments of the stream. -/
def schedule_attempt_id (rand : Nat → Fin 36) (pos : Nat) : String :=
  String.mk ((List.range 6).map (fun k => attempt_id_chars.getD (rand (pos + k)).val 'a'))

/-! ## List-endpoint query grammar
(`src/batch/batch/front_end/front_end.py`, `_query_batch_jobs` lines
140-239 and `_query_batches` lines 430-523) -/

/-- The keys of `state_query_values` in `_query_batch_jobs`
(`front_end.py:141-152`). -/
def job_state_query_keys : List String :=
  [("pending"), ("ready"), ("running"), ("live"), ("cancelled"),
   ("error"), ("failed"), ("bad"), ("success"), ("done")]

/-- The batch-state keywords recognised by the `elif` chain of
`_query_batches` (`front_end.py:467-488`). -/
def batch_state_query_keys : List String :=
  [("open"), ("closed"), ("complete"), ("running"), ("cancelled"),
   ("failure"), ("success")]

/-- One recognised query term: an attribute `key=value` match, a `has:key`
match, or a state keyword. -/
inductive QueryTermKind where
  | attrEq (k v : String)
  | hasKey (k : String)
  | stateCond (t : String)
  deriving Repr, DecidableEq

/-- `t.split('=', 1)`: the part before the first `'='` and the rest.
(String operations are written over `String.toList` so that concrete
instances evaluate inside the kernel.) -/
def split_first_eq (t : String) : String × String :=
  (String.mk (t.toList.takeWhile (fun c => c ≠ '=')),
   String.mk ((t.toList.dropWhile (fun c => c ≠ '=')).drop 1))

/-- One iteration of the term loop shared by `_query_batch_jobs`
(`front_end.py:170-202`) and `_query_batches` (`front_end.py:444-492`):
strip an optional `'!'`, then classify the term as `key=value`, `has:key`,
or a state keyword; an unrecognised term yields `none` (the code's `else`
branch, which sets a session message and returns `([], None)`). -/
def parse_query_term (state_keys : List String) (t0 : String) :
    Option (Bool × QueryTermKind) :=
  let negate := t0.toList.head? = some '!'
  let t := if negate then String.mk (t0.toList.drop 1) else t0
  if t.toList.contains '=' then
    some (negate, .attrEq (split_first_eq t).1 (split_first_eq t).2)
  else if t.toList.take 4 = String.toList ("has:") then
    some (negate, .hasKey (String.mk (t.toList.drop 4)))
  else if t ∈ state_keys then
    some (negate, .stateCond t)
  else
    none

/-- `q.split()`: whitespace-separated terms, empties dropped. -/
def query_terms (q : String) : List String :=
  ((q.toList.splitOnP Char.isWhitespace).map List.asString).filter (fun s => s ≠ "")

/-- Outcome of the term loop: either the accumulated conditions (the
request goes on to run the SQL query) or the early `return ([], None)`
taken at the first unrecognised term (`front_end.py:199-202` and
`front_end.py:489-492`). -/
inductive QueryParse where
  | conds (cs : List (Bool × QueryTermKind))
  | invalidTerm (t : String)
  deriving Repr, DecidableEq

/-- The term loop of `_query_batch_jobs` / `_query_batches`. -/
def parse_query_loop (state_keys : List String) :
    List String → List (Bool × QueryTermKind) → QueryParse
  | [], acc => .conds acc
  | t :: ts, acc =>
    match parse_query_term state_keys t with
    | none => .invalidTerm t
    | some c => parse_query_loop state_keys ts (acc ++ [c])

/-- A list-endpoint response: HTTP status plus the items of the page.  The
rows produced by the SQL query are supplied by `run` (the database engine
is outside the embedding). -/
structure ListResponse (A : Type) where
  status : Nat
  items : List A
  deriving Repr, DecidableEq

/-- Embedding of `GET /api/v1alpha/batches` (`get_batches`,
`front_end.py:526-537`, over `_query_batches`): on an unrecognised term the
helper returns `([], None)` and the handler serialises it as a normal `200`
response with an empty page; otherwise the SQL query runs. -/
def get_batches_endpoint (run : List (Bool × QueryTermKind) → List BatchRecord)
    (q : String) : ListResponse BatchRecord :=
  match parse_query_loop batch_state_query_keys (query_terms q) [] with
  | .invalidTerm _ => { status := 200, items := [] }
  | .conds cs => { status := 200, items := run cs }

/-- Embedding of `GET /api/v1alpha/batches/{batch_id}/jobs` (`get_jobs`,
`front_end.py:242-264`, over `_query_batch_jobs`), items abstracted to job
ids. -/
def get_jobs_endpoint (run : List (Bool × QueryTermKind) → List Nat)
    (q : String) : ListResponse Nat :=
  match parse_query_loop job_state_query_keys (query_terms q) [] with
  | .invalidTerm _ => { status := 200, items := [] }
  | .conds cs => { status := 200, items := run cs }

/-! ## Batch creation
(`src/batch/batch/front_end/front_end.py`, `create_batch` lines 854-929) -/

/-- A billing project as seen by `create_batch`: `query_billing_projects`
returns rows with `status`, `limit` and `accrued_cost`
(`front_end.py:885-898`).  Costs are modelled by `ℚ`. -/
structure BillingProject where
  name : String
  users : List String
  status : String
  limit : Option ℚ
  accrued_cost : ℚ
  deriving Repr, DecidableEq

/-- A row of the `batches` table, restricted to the columns the embedded
endpoints read. -/
structure BatchesRow where
  id : Nat
  user : String
  billing_project : String
  token : String
  state : String
  n_jobs : Nat
  deleted : Bool
  deriving Repr, DecidableEq

/-- The front-end's durable state: the `batches` and `batch_attributes`
tables (with the auto-increment counter) and the billing projects. -/
structure FrontEndState where
  batches : List BatchesRow
  batch_attributes : List (Nat × String × String)
  next_batch_id : Nat
  billing_projects : List BillingProject
  deriving Repr, DecidableEq

/-- Modelled from the spec: `query_billing_projects` (from the `gear`
package, not in the sources) restricted to a user and a project name — the
projects with that name that the user is a member of. -/
def query_billing_projects (bps : List BillingProject) (user : String)
    (billing_project : String) : List BillingProject :=
  bps.filter (fun bp => bp.name == billing_project && bp.users.contains user)

/-- The fields of a `POST /batches/create` body that the embedding uses. -/
structure BatchSpecIn where
  billing_project : String
  token : String
  n_jobs : Nat
  attributes : List (String × String)
  deriving Repr, DecidableEq

/-- Embedding of the `create_batch` insert transaction
(`front_end.py:883-928`): billing-project checks, then the
`SELECT ... WHERE token = %s AND user = %s FOR UPDATE` idempotence lookup,
then the insert.  The `assert len(billing_projects) == 0` failure surfaces
as `internalError`. -/
def create_batch (st : FrontEndState) (user : String) (spec : BatchSpecIn) :
    FrontEndState × Except HttpError Nat :=
  match query_billing_projects st.billing_projects user spec.billing_project with
  | [] => (st, .error (.forbidden ("unknown billing project " ++ spec.billing_project)))
  | _ :: _ :: _ => (st, .error (.internalError ("assertion failed")))
  | [bp] =>
    if bp.status = "closed" ∨ bp.status = "deleted" then
      (st, .error (.forbidden ("Billing project " ++ spec.billing_project ++ " is closed or deleted.")))
    else
      let over_limit : Bool := match bp.limit with
        | some l => bp.accrued_cost ≥ l
        | none => false
      if over_limit then
        (st, .error (.forbidden ("billing project " ++ spec.billing_project ++ " has exceeded the budget")))
      else
        match st.batches.find? (fun b => b.token == spec.token && b.user == user) with
        | some maybe_batch => (st, .ok maybe_batch.id)
        | none =>
          let id := st.next_batch_id
          let row : BatchesRow :=
            { id := id, user := user, billing_project := spec.billing_project,
              token := spec.token, state := ("open"), n_jobs := spec.n_jobs,
              deleted := false }
          ({ st with
              batches := st.batches ++ [row],
              next_batch_id := id + 1,
              batch_attributes := st.batch_attributes ++
                spec.attributes.map (fun kv => (id, kv.1, kv.2)) },
            .ok id)

/-! ## Batch close
(`src/batch/batch/front_end/front_end.py`, `close_batch` lines 998-1037) -/

/-- State for the close-batch path: the `batches` table and the primary
keys of the `jobs` table. -/
structure CloseBatchState where
  batches : List BatchesRow
  jobs : List (Nat × Nat)
  deriving Repr, DecidableEq

/-- Number of jobs actually inserted for a batch. -/
def job_count (st : CloseBatchState) (batch_id : Nat) : Nat :=
  (st.jobs.filter (fun j => j.1 == batch_id)).length

/-- Return value of the `close_batch` stored procedure: `rc = 0`, or
`rc = 2` with `expected_n_jobs` / `actual_n_jobs`
(`front_end.py:1021-1027`). -/
inductive CloseRv where
  | ok : CloseRv
  | wrongNumberOfJobs (expected actual : Nat) : CloseRv
  | noBatch : CloseRv
  deriving Repr, DecidableEq

/-- Modelled from the spec: the `close_batch(batch_id, now)` stored
procedure (SQL, not in the sources).  Per §4.1/§4.2 it verifies that the
declared `n_jobs` equals the actual inserted job count — answering
`{expected_n_jobs, actual_n_jobs}` and changing nothing on a mismatch —
and otherwise sets the batch state to `running`. -/
def close_batch_proc (st : CloseBatchState) (batch_id : Nat) (_now : Nat) :
    CloseBatchState × CloseRv :=
  match st.batches.find? (fun b => b.id == batch_id) with
  | none => (st, .noBatch)
  | some b =>
    let actual := job_count st batch_id
    if actual ≠ b.n_jobs then (st, .wrongNumberOfJobs b.n_jobs actual)
    else
      ({ st with
          batches := st.batches.map
            (fun r => if r.id == batch_id then { r with state := ("running") } else r) },
        .ok)

/-- Embedding of the `PATCH /batches/{id}/close` handler
(`front_end.py:998-1037`): look the batch up for the user, call the
procedure, and turn `rc = 2` into an HTTP 400 whose reason is exactly
`wrong number of jobs: expected N, actual M`. -/
def close_batch (st : CloseBatchState) (user : String) (batch_id : Nat)
    (now : Nat) : CloseBatchState × Except HttpError Unit :=
  match st.batches.find? (fun b => b.user == user && b.id == batch_id && !b.deleted) with
  | none => (st, .error .notFound)
  | some _ =>
    match close_batch_proc st batch_id now with
    | (st2, .ok) => (st2, .ok ())
    | (_, .wrongNumberOfJobs expected actual) =>
      (st, .error (.badRequest
        ("wrong number of jobs: expected " ++ Nat.repr expected ++
          ", actual " ++ Nat.repr actual)))
    | (_, .noBatch) => (st, .error (.internalError ("CallError")))

/-! ## Job creation
(`src/batch/batch/front_end/front_end.py`, `create_jobs` lines 553-851) -/

/-- A job spec as it reaches the per-job loop of `create_jobs`
(`front_end.py:615-766`), with resource requests already parsed:
`parse_cpu_in_mcpu` / `parse_memory_in_bytes` / `parse_storage_in_bytes`
(`hailtop/batch_client/parse.py`) convert the request strings with float
arithmetic, so their outputs — milli-cpus and bytes — are taken as the
inputs here.  `secrets` and `service_account` are `(namespace, name)`
pairs. -/
structure JobSpecIn where
  job_id : Nat
  parent_ids : List Nat
  always_run : Bool
  attributes : List (String × String)
  req_cores_mcpu : Nat
  req_memory_bytes : Nat
  req_storage_bytes : Nat
  worker_type : String
  secrets : List (String × String)
  network : Option String
  service_account : Option (String × String)
  mount_tokens : Bool
  deriving Repr, DecidableEq

/-- A row of `jobs_args` destined for the `jobs` table
(`front_end.py:755-757`): `(batch_id, job_id, state, spec, always_run,
cores_mcpu, n_pending_parents, inst_coll)`.  The serialised `db_spec` is
modelled by the job spec itself. -/
structure JobsArgsRow where
  batch_id : Nat
  job_id : Nat
  state : String
  spec : JobSpecIn
  always_run : Bool
  cores_mcpu : Nat
  n_pending_parents : Nat
  inst_coll : String
  deriving Repr, DecidableEq

/-- The `batches_inst_coll_staging` counters (`front_end.py:814-824`). -/
structure StagingCounters where
  n_jobs : Nat
  n_ready_jobs : Nat
  ready_cores_mcpu : Nat
  deriving Repr, DecidableEq

/-- The `batch_inst_coll_cancellable_resources` counters
(`front_end.py:825-834`). -/
structure CancellableCounters where
  n_ready_cancellable_jobs : Nat
  ready_cancellable_cores_mcpu : Nat
  deriving Repr, DecidableEq

/-- The per-pool accumulator `inst_coll_resources` built by the job loop
(`front_end.py:604-610`). -/
structure ICRCounters where
  n_jobs : Nat
  n_ready_jobs : Nat
  ready_cores_mcpu : Nat
  n_ready_cancellable_jobs : Nat
  ready_cancellable_cores_mcpu : Nat
  deriving Repr, DecidableEq

/-- The tables touched by the `create_jobs` insert transaction.  Staging
and cancellable counters are keyed by `(batch_id, inst_coll, token)`. -/
structure JobsDB where
  jobs : List JobsArgsRow
  job_parents : List (Nat × Nat × Nat)
  job_attributes : List (Nat × Nat × String × String)
  staging : List ((Nat × String × Nat) × StagingCounters)
  cancellable : List ((Nat × String × Nat) × CancellableCounters)
  batch_bunches : List (Nat × String × Nat)
  deriving Repr, DecidableEq

/-- Primary keys of a list of job rows. -/
def jobs_keys (rows : List JobsArgsRow) : List (Nat × Nat) :=
  rows.map (fun r => (r.batch_id, r.job_id))

/-- Whether a multi-row `INSERT` succeeds: it raises duplicate-entry error
1062 — inserting nothing, since a single SQL statement is atomic — exactly
when the new keys collide with an existing key or with each other. -/
def insert_many_ok {K : Type} [DecidableEq K] (existing news : List K) : Prop :=
  news.Nodup ∧ ∀ k ∈ news, k ∉ existing

instance {K : Type} [DecidableEq K] (existing news : List K) :
    Decidable (insert_many_ok existing news) := by
  unfold insert_many_ok; infer_instance

/-- `INSERT ... ON DUPLICATE KEY UPDATE` for the staging counters
(`front_end.py:814-824`). -/
def upsert_staging (tbl : List ((Nat × String × Nat) × StagingCounters))
    (key : Nat × String × Nat) (c : StagingCounters) :
    List ((Nat × String × Nat) × StagingCounters) :=
  if tbl.any (fun e => e.1 == key) then
    tbl.map (fun e =>
      if e.1 == key then
        (e.1, ⟨e.2.n_jobs + c.n_jobs, e.2.n_ready_jobs + c.n_ready_jobs,
               e.2.ready_cores_mcpu + c.ready_cores_mcpu⟩)
      else e)
  else tbl ++ [(key, c)]

/-- `INSERT ... ON DUPLICATE KEY UPDATE` for the cancellable counters
(`front_end.py:825-834`). -/
def upsert_cancellable (tbl : List ((Nat × String × Nat) × CancellableCounters))
    (key : Nat × String × Nat) (c : CancellableCounters) :
    List ((Nat × String × Nat) × CancellableCounters) :=
  if tbl.any (fun e => e.1 == key) then
    tbl.map (fun e =>
      if e.1 == key then
        (e.1, ⟨e.2.n_ready_cancellable_jobs + c.n_ready_cancellable_jobs,
               e.2.ready_cancellable_cores_mcpu + c.ready_cancellable_cores_mcpu⟩)
      else e)
  else tbl ++ [(key, c)]

/-- Outcome of the insert transaction: `committed` is serialised by the
handler as a plain 200 `web.Response()`. -/
inductive InsertOutcome where
  | committed : InsertOutcome
  | badRequest (reason : String) : InsertOutcome
  | internalError (msg : String) : InsertOutcome
  deriving Repr, DecidableEq

/-- Embedding of the `insert` transaction of `create_jobs`
(`front_end.py:775-841`).  A duplicate-entry error (1062) on the `jobs`
insert is caught and the handler returns success with the transaction
committing nothing; a 1062 on the `job_parents` insert raises HTTP 400 and
the transaction rolls back; any other integrity failure propagates
(`internalError`) and also rolls back. -/
def create_jobs_insert (db : JobsDB) (batch_id : Nat)
    (jobs_args : List JobsArgsRow)
    (job_parents_args : List (Nat × Nat × Nat))
    (job_attributes_args : List (Nat × Nat × String × String))
    (icr : List (String × ICRCounters)) (rand_token : Nat)
    (full_spec_in_gcs : Bool) (spec_writer_token : String)
    (start_job_id : Option Nat) : JobsDB × InsertOutcome :=
  if ¬ insert_many_ok (jobs_keys db.jobs) (jobs_keys jobs_args) then
    (db, .committed)
  else if ¬ insert_many_ok db.job_parents job_parents_args then
    (db, .badRequest ("bunch contains job with duplicated parents"))
  else if ¬ insert_many_ok
      (db.job_attributes.map (fun a => (a.1, a.2.1, a.2.2.1)))
      (job_attributes_args.map (fun a => (a.1, a.2.1, a.2.2.1))) then
    (db, .internalError ("encountered exception while inserting a bunch"))
  else
    let db1 := { db with
      jobs := db.jobs ++ jobs_args,
      job_parents := db.job_parents ++ job_parents_args,
      job_attributes := db.job_attributes ++ job_attributes_args }
    let db2 := icr.foldl (fun d ic =>
      { d with
        staging := upsert_staging d.staging (batch_id, ic.1, rand_token)
          ⟨ic.2.n_jobs, ic.2.n_ready_jobs, ic.2.ready_cores_mcpu⟩,
        cancellable := upsert_cancellable d.cancellable (batch_id, ic.1, rand_token)
          ⟨ic.2.n_ready_cancellable_jobs, ic.2.ready_cancellable_cores_mcpu⟩ }) db1
    let db3 :=
      if full_spec_in_gcs then
        { db2 with batch_bunches :=
            db2.batch_bunches ++ [(batch_id, spec_writer_token, start_job_id.getD 0)] }
      else db2
    (db3, .committed)

/-- A pool as the front-end sees it (`front_end.py:666-668`). -/
structure PoolCfg where
  name : String
  worker_type : String
  worker_cores : Nat
  worker_local_ssd_data_disk : Bool
  worker_pd_ssd_data_disk_size_gb : Nat
  deriving Repr, DecidableEq

/-- Modelled from the spec: the resource-adjustment helpers imported from
`batch/utils.py` (`front_end.py:40-42`), which is not in the sources.  The
spec says only that the effective `cores_mcpu` is "adjusted up to meet the
memory-per-core ratio of the pool's worker type and packability rounding",
so the helpers are kept as explicit function parameters. -/
structure ResourceAdjust where
  adjust_cores_for_memory_request : Nat → Nat → String → Nat
  adjust_cores_for_storage_request : Nat → Nat → Nat → Bool → Nat → Nat
  adjust_cores_for_packability : Nat → Nat
  worker_memory_per_core_mib : String → Nat
  total_worker_storage_gib : Bool → Nat → Nat

/-- The request-independent inputs of `create_jobs`: the adjustment
helpers, the pool selector (modelled from the spec — `pool_selector.py` is
not in the sources: it picks the pool for a worker type), the
authenticated user, `DEFAULT_NAMESPACE`, and the batch format version's
`has_full_spec_in_gcs()`. -/
structure CreateJobsCtx where
  adjust : ResourceAdjust
  pool_selector : String → Option PoolCfg
  user : String
  default_namespace : String
  has_full_spec_in_gcs : Bool

/-- The effective cores of a job on a pool: the three adjustments of
`front_end.py:670-673` composed. -/
def effective_cores_mcpu (ctx : CreateJobsCtx) (pool : PoolCfg) (s : JobSpecIn) : Nat :=
  ctx.adjust.adjust_cores_for_packability
    (ctx.adjust.adjust_cores_for_storage_request
      (ctx.adjust.adjust_cores_for_memory_request
        s.req_cores_mcpu s.req_memory_bytes s.worker_type)
      s.req_storage_bytes pool.worker_cores pool.worker_local_ssd_data_disk
      pool.worker_pd_ssd_data_disk_size_gb)

/-- The 400 reason of `front_end.py:678-681`; the original interpolates the
raw request strings, rendered here from the parsed values. -/
def unsatisfiable_reason (batch_id : Nat) (s : JobSpecIn) (pool : PoolCfg)
    (ctx : CreateJobsCtx) : String :=
  "resource requests for job (" ++ Nat.repr batch_id ++ ", " ++ Nat.repr s.job_id ++
  ") with worker_type " ++ s.worker_type ++ " are unsatisfiable: " ++
  "requested: cpu=" ++ Nat.repr s.req_cores_mcpu ++
  ", memory=" ++ Nat.repr s.req_memory_bytes ++
  " storage=" ++ Nat.repr s.req_storage_bytes ++
  "maximum: cpu=" ++ Nat.repr pool.worker_cores ++
  ", memory=" ++ Nat.repr (ctx.adjust.worker_memory_per_core_mib s.worker_type * pool.worker_cores) ++
  "Mi, storage=" ++ Nat.repr (ctx.adjust.total_worker_storage_gib
    pool.worker_local_ssd_data_disk pool.worker_pd_ssd_data_disk_size_gb) ++ "G"

/-- Embedding of `check_service_account_permissions`
(`front_end.py:540-550`). -/
def check_service_account_permissions (user default_namespace : String)
    (sa : Option (String × String)) : Except HttpError Unit :=
  match sa with
  | none => .ok ()
  | some (ns, nm) =>
    if user = "ci" ∧ (nm = "ci-agent" ∨ nm = "admin") ∧
        (default_namespace = "default" ∨ ns = default_namespace) then .ok ()
    else if user = "test" ∧ ns = default_namespace ∧ nm = "test-batch-sa" then .ok ()
    else .error (.badRequest
      ("unauthorized service account (" ++ ns ++ ", " ++ nm ++ ") for user " ++ user))

/-- Python truthiness of `prev_job_idx` (`front_end.py:630`): falsy when
`None` or `0`. -/
def prev_truthy : Option Nat → Bool
  | none => false
  | some n => n != 0

/-- The accumulator of the job loop (`front_end.py:600-613`). -/
structure BuildState where
  prev_job_idx : Option Nat
  start_job_id : Option Nat
  jobs_args : List JobsArgsRow
  job_parents_args : List (Nat × Nat × Nat)
  job_attributes_args : List (Nat × Nat × String × String)
  icr : List (String × ICRCounters)

/-- `inst_coll_resources[pool.name]` with `defaultdict` semantics
(`front_end.py:604-610, 736-744`). -/
def icr_update (icr : List (String × ICRCounters)) (name : String)
    (f : ICRCounters → ICRCounters) : List (String × ICRCounters) :=
  if icr.any (fun e => e.1 == name) then
    icr.map (fun e => if e.1 == name then (e.1, f e.2) else e)
  else icr ++ [(name, f ⟨0, 0, 0, 0, 0⟩)]

/-- One iteration of the job loop of `create_jobs`
(`front_end.py:615-766`), in source order: contiguity check, cpu ≠ 0
check, pool selection, resource adjustment and the unsatisfiability check,
secret authorization, service-account authorization, staging-counter
accumulation, network authorization, and finally the `jobs_args` /
`job_parents_args` / `job_attributes_args` rows.  (The mutations of the
spec body itself — appended gsa-key secret, `env` default and
`mount_tokens` secrets, `front_end.py:695-731` — only change the
serialised spec blob, which is modelled opaquely by the spec value.) -/
def process_job_spec (ctx : CreateJobsCtx) (batch_id : Nat) (st : BuildState)
    (s : JobSpecIn) : Except HttpError BuildState :=
  let start_job_id := if st.start_job_id = none then some s.job_id else st.start_job_id
  if ctx.has_full_spec_in_gcs = true ∧ prev_truthy st.prev_job_idx = true ∧
      s.job_id ≠ st.prev_job_idx.getD 0 + 1 then
    .error (.badRequest ("noncontiguous job ids found in the spec: " ++
      Nat.repr (st.prev_job_idx.getD 0) ++ " -> " ++ Nat.repr s.job_id))
  else if s.req_cores_mcpu = 0 then
    .error (.badRequest ("bad resource request for job (" ++ Nat.repr batch_id ++
      ", " ++ Nat.repr s.job_id ++ "): cpu cannot be 0"))
  else
    match ctx.pool_selector s.worker_type with
    | none => .error (.badRequest ("unsupported worker type " ++ s.worker_type))
    | some pool =>
      let cores_mcpu := effective_cores_mcpu ctx pool s
      if cores_mcpu > pool.worker_cores * 1000 then
        .error (.badRequest (unsatisfiable_reason batch_id s pool ctx))
      else if s.secrets ≠ [] ∧ ctx.user ≠ "ci" then
        .error (.badRequest ("unauthorized secret for user " ++ ctx.user))
      else
        match check_service_account_permissions ctx.user ctx.default_namespace
            s.service_account with
        | .error e => .error e
        | .ok _ =>
          let state := if s.parent_ids.length = 0 then ("Ready") else ("Pending")
          let icr1 := icr_update st.icr pool.name (fun c =>
            if s.parent_ids.length = 0 then
              { c with
                n_jobs := c.n_jobs + 1,
                n_ready_jobs := c.n_ready_jobs + 1,
                ready_cores_mcpu := c.ready_cores_mcpu + cores_mcpu,
                n_ready_cancellable_jobs :=
                  if s.always_run then c.n_ready_cancellable_jobs
                  else c.n_ready_cancellable_jobs + 1,
                ready_cancellable_cores_mcpu :=
                  if s.always_run then c.ready_cancellable_cores_mcpu
                  else c.ready_cancellable_cores_mcpu + cores_mcpu }
            else { c with n_jobs := c.n_jobs + 1 })
          if ctx.user ≠ "ci" ∧ ¬ (s.network = none ∨ s.network = some ("public")) then
            .error (.badRequest ("unauthorized network"))
          else
            .ok { prev_job_idx := some s.job_id,
                  start_job_id := start_job_id,
                  jobs_args := st.jobs_args ++
                    [⟨batch_id, s.job_id, state, s, s.always_run, cores_mcpu,
                      s.parent_ids.length, pool.name⟩],
                  job_parents_args := st.job_parents_args ++
                    s.parent_ids.map (fun p => (batch_id, s.job_id, p)),
                  job_attributes_args := st.job_attributes_args ++
                    s.attributes.map (fun kv => (batch_id, s.job_id, kv.1, kv.2)),
                  icr := icr1 }

/-- The whole `build db args` step (`front_end.py:597-766`): the job loop,
failing with the first raised HTTP error. -/
def create_jobs_build (ctx : CreateJobsCtx) (batch_id : Nat) :
    BuildState → List JobSpecIn → Except HttpError BuildState
  | st, [] => .ok st
  | st, s :: ss =>
    match process_job_spec ctx batch_id st s with
    | .error e => .error e
    | .ok st2 => create_jobs_build ctx batch_id st2 ss

/-- The initial accumulator (`front_end.py:600-613`). -/
def initial_build_state : BuildState := ⟨none, none, [], [], [], []⟩

/-- Embedding of the `POST /batches/{id}/jobs/create` handler
(`create_jobs`, `front_end.py:553-851`): batch lookup and open check, the
job loop, then the insert transaction.  `validate_and_clean_jobs` (from the
missing `front_end/validate.py`) is shape validation of the raw JSON; the
typed `JobSpecIn` values are well-shaped by construction.  Every failure
before the transaction leaves the database untouched. -/
def create_jobs (ctx : CreateJobsCtx) (db : JobsDB) (batch : Option BatchesRow)
    (batch_id : Nat) (specs : List JobSpecIn) (rand_token : Nat)
    (spec_writer_token : String) : JobsDB × Except HttpError Unit :=
  match batch with
  | none => (db, .error .notFound)
  | some b =>
    if b.state ≠ "open" then
      (db, .error (.badRequest ("batch " ++ Nat.repr batch_id ++ " is not open")))
    else
      match create_jobs_build ctx batch_id initial_build_state specs with
      | .error e => (db, .error e)
      | .ok bs =>
        match create_jobs_insert db batch_id bs.jobs_args bs.job_parents_args
            bs.job_attributes_args bs.icr rand_token ctx.has_full_spec_in_gcs
            spec_writer_token bs.start_job_id with
        | (db2, .committed) => (db2, .ok ())
        | (_, .badRequest r) => (db, .error (.badRequest r))
        | (_, .internalError m) => (db, .error (.internalError m))

/-! ## Job completion (`src/batch/batch/batch.py`, lines 98-140) -/

/-- Python runtime errors surfacing from the embedded code. -/
inductive PyError where
  | typeError (msg : String) : PyError
  | attributeError (msg : String) : PyError
  | valueError (msg : String) : PyError
  | callError : PyError
  deriving Repr, DecidableEq

/-- Modelled from the spec: `complete_states` from `batch/globals.py` (not
in the sources); per §3 the terminal job states are Error, Failed, Success
and Cancelled. -/
def complete_states : List String :=
  [("Cancelled"), ("Error"), ("Failed"), ("Success")]

/-- The record returned by the `mark_job_complete` stored procedure:
`{old_state, cores_mcpu, instance_name}` (spec §4.2,
`batch.py:121-135`). -/
structure MarkCompleteRv where
  old_state : String
  cores_mcpu : Nat
  instance_name : Option String
  deriving Repr, DecidableEq

/-- A job row as the completion path sees it. -/
structure SchedJob where
  batch_id : Nat
  job_id : Nat
  state : String
  cores_mcpu : Nat
  instance_name : Option String
  deriving Repr, DecidableEq

/-- The scheduler-side database: the jobs table (the parts of it this path
touches). -/
structure SchedDB where
  jobs : List SchedJob
  deriving Repr, DecidableEq

/-- Modelled from the spec: the `mark_job_complete` stored procedure (SQL,
not in the sources).  Per §4.2 it transitions the job to the terminal
`new_state` and returns `{old_state, cores_mcpu, instance_name}`; if
`old_state` is already terminal it is a no-op returning the prior terminal
state.  (The further propagation to children and batch counters is outside
what claim C1 observes and is not modelled.) -/
def mark_job_complete_proc (db : SchedDB) (batch_id job_id : Nat)
    (new_state : String) : SchedDB × Except PyError MarkCompleteRv :=
  match db.jobs.find? (fun j => j.batch_id == batch_id && j.job_id == job_id) with
  | none => (db, .error .callError)
  | some j =>
    if j.state ∈ complete_states then
      (db, .ok ⟨j.state, j.cores_mcpu, j.instance_name⟩)
    else
      ({ jobs := db.jobs.map (fun r =>
          if r.batch_id == batch_id && r.job_id == job_id then
            { r with state := new_state } else r) },
        .ok ⟨j.state, j.cores_mcpu, j.instance_name⟩)

/-- An instance of the in-memory pool (`inst_pool.name_instance`). -/
structure InstanceRec where
  name : String
  free_cores_mcpu : Int
  deriving Repr, DecidableEq

/-- The `app` state that `mark_job_complete` reads and writes: the
database, the instance pool, the `scheduler_state_changed` event, and — to
make the completion callback observable — the batches for which
`notify_batch_job_complete` ran. -/
structure SchedulerApp where
  db : SchedDB
  inst_pool : List InstanceRec
  scheduler_state_changed : Bool
  callbacks_fired : List Nat
  deriving Repr, DecidableEq

/-- Embedding of `notify_batch_job_complete` (`batch.py:73-95`), recorded
as: the callback path ran for this batch. -/
def notify_batch_job_complete (app : SchedulerApp) (batch_id : Nat) : SchedulerApp :=
  { app with callbacks_fired := app.callbacks_fired ++ [batch_id] }

/-- What `retry_deadlock(f)` evaluates to.  `retry_deadlock` is an
`async def` (`batch.py:20-30`), so a bare call — without `await` — returns
a coroutine object whose body (and hence `f`) has not run; `await`ing it
runs `f` (retrying deadlocks, which the pure model has none of). -/
inductive AwaitableRv where
  | coroutine (run : SchedDB → SchedDB × Except PyError MarkCompleteRv) : AwaitableRv
  | value (db : SchedDB) (rv : Except PyError MarkCompleteRv) : AwaitableRv

/-- The body of `mark_job_complete` (`batch.py:98-140`) from `rv` onward
(`batch.py:119-140`): read `rv['old_state']`; if it is terminal, do
nothing; otherwise adjust the instance's free cores, signal the scheduler,
and run the completion-callback check.  Subscripting is a `TypeError`
unless `rv` is the procedure's dict.  Returns the procedure record
alongside the new app state (the Python function itself returns `None`;
the record is what the claim observes). -/
def mark_job_complete_rest (app : SchedulerApp) (batch_id : Nat)
    (rv : AwaitableRv) : Except PyError (SchedulerApp × MarkCompleteRv) :=
  match rv with
  | .coroutine _ =>
    .error (.typeError ("argument of type 'coroutine' is not subscriptable"))
  | .value db2 r =>
    match r with
    | .error e => .error e
    | .ok rv =>
      let app1 : SchedulerApp := { app with db := db2 }
      if rv.old_state ∈ complete_states then
        .ok (app1, rv)
      else
        let app2 :=
          match rv.instance_name with
          | none => app1
          | some iname =>
            match app1.inst_pool.find? (fun i => i.name == iname) with
            | none => app1
            | some _ =>
              { app1 with
                inst_pool := app1.inst_pool.map (fun i =>
                  if i.name == iname then
                    { i with free_cores_mcpu := i.free_cores_mcpu + rv.cores_mcpu }
                  else i),
                scheduler_state_changed := true }
        .ok (notify_batch_job_complete app2 batch_id, rv)

/-- Embedding of `mark_job_complete` as written (`batch.py:98-140`): line
117 reads `rv = retry_deadlock(f)` with no `await`, so `rv` is bound to
the un-awaited coroutine and line 121 (`rv['old_state']`) raises
`TypeError` before the database is touched. -/
def mark_job_complete (app : SchedulerApp) (batch_id job_id : Nat)
    (_attempt_id new_state : String) :
    Except PyError (SchedulerApp × MarkCompleteRv) :=
  let rv : AwaitableRv :=
    .coroutine (fun db => mark_job_complete_proc db batch_id job_id new_state)
  mark_job_complete_rest app batch_id rv

/-- `mark_job_complete` with line 117 as clearly intended —
`rv = await retry_deadlock(f)`, matching `await retry_deadlock(f)` in
`mark_job_started` (`batch.py:158`): the procedure runs and `rv` is its
record. -/
def mark_job_complete_awaited (app : SchedulerApp) (batch_id job_id : Nat)
    (_attempt_id new_state : String) :
    Except PyError (SchedulerApp × MarkCompleteRv) :=
  let run := fun db => mark_job_complete_proc db batch_id job_id new_state
  let rv : AwaitableRv := .value (run app.db).1 (run app.db).2
  mark_job_complete_rest app batch_id rv

/-! ## Pool selection with `none_last`
(`src/hail/python/hailtop/utils/sorting.py` lines 5-8 and
`src/batch/batch/inst_coll_config.py` lines 93-204) -/

/-- The `memory_bytes: Union[int, str]` argument of
`convert_requests_to_resources` (`inst_coll_config.py:93-101`). -/
inductive MemoryRequest where
  | bytes (n : Nat) : MemoryRequest
  | ratio (s : String) : MemoryRequest
  deriving Repr, DecidableEq

/-- `ResourcesAndCost` (`inst_coll_config.py:122-125`); the resources
tuple is `(cores_mcpu, memory_bytes, storage_gib)`, where `storage_gib`
can be `None` (oversized request).  Costs are modelled by `ℚ`. -/
structure ResourcesAndCost where
  cores_mcpu : Nat
  memory_bytes : Nat
  storage_gib : Option Nat
  cost : ℚ
  deriving Repr, DecidableEq

/-- `worker_type_to_memory_ratio`
(`hailtop/batch_client/parse.py:34-39`): the inverse of
`{'lowmem': 'highcpu', 'standard': 'standard', 'highmem': 'highmem'}`. -/
def worker_type_to_memory_ratio (worker_type : String) : Option String :=
  if worker_type = "highcpu" then some ("lowmem")
  else if worker_type = "standard" then some ("standard")
  else if worker_type = "highmem" then some ("highmem")
  else none

/-- Modelled from the spec: the helpers `adjust_cores_for_memory_request`,
`adjust_cores_for_packability`, `cores_mcpu_to_memory_bytes` (from
`batch/utils.py`) and `WorkerConfig.cost_per_hour` (from
`worker_config.py`), none of which are in the sources; kept as function
parameters. -/
structure InstUtils where
  adjust_cores_for_memory_request : Nat → Nat → String → Nat
  adjust_cores_for_packability : Nat → Nat
  cores_mcpu_to_memory_bytes : Nat → String → Nat
  cost_per_hour : Nat → MemoryRequest → Nat → ℚ

/-- `PoolConfig`, restricted to the fields `convert_requests_to_resources`
reads (`inst_coll_config.py:45-108`); `self.memory_ratio` is
`worker_type_to_memory_ratio[self.worker_type]` set in `__init__`
(`inst_coll_config.py:88`), inlined here. -/
structure PoolConfig where
  name : String
  worker_type : String
  worker_cores : Nat
  deriving Repr, DecidableEq

/-- Embedding of `PoolConfig.convert_requests_to_resources`
(`inst_coll_config.py:93-108`). -/
def convert_requests_to_resources (u : InstUtils) (max_gib : Nat)
    (p : PoolConfig) (cores_mcpu : Nat) (memory : MemoryRequest)
    (storage_bytes : Nat) : Option (Nat × Nat × Option Nat) :=
  let mem0 : Option Nat :=
    match memory with
    | .ratio s =>
      if some s ≠ worker_type_to_memory_ratio p.worker_type then none
      else some (u.cores_mcpu_to_memory_bytes cores_mcpu p.worker_type)
    | .bytes n => some n
  match mem0 with
  | none => none
  | some memory_bytes =>
    let c1 := u.adjust_cores_for_memory_request cores_mcpu memory_bytes p.worker_type
    let c2 := u.adjust_cores_for_packability c1
    if c2 > p.worker_cores * 1000 then none
    else some (c2, u.cores_mcpu_to_memory_bytes c2 p.worker_type,
      requested_storage_bytes_to_actual_storage_gib max_gib storage_bytes)

/-- Embedding of `PoolConfig.cost_and_resources_from_request`
(`inst_coll_config.py:110-119`): `cost_per_hour` is applied to the
original request. -/
def cost_and_resources_from_request (u : InstUtils) (max_gib : Nat)
    (p : PoolConfig) (cores_mcpu : Nat) (memory : MemoryRequest)
    (storage_bytes : Nat) : Option ResourcesAndCost :=
  match convert_requests_to_resources u max_gib p cores_mcpu memory storage_bytes with
  | some (c, m, g) => some ⟨c, m, g, u.cost_per_hour cores_mcpu memory storage_bytes⟩
  | none => none

/-- The key `lambda x: x.cost` passed to `none_last` in `select_pool`
(`inst_coll_config.py:204`): attribute access on `None` raises
`AttributeError`. -/
def cost_attr : Option ResourcesAndCost → Except PyError ℚ
  | none => .error (.attributeError ("'NoneType' object has no attribute 'cost'"))
  | some rc => .ok rc.cost

/-- Embedding of `none_last` (`sorting.py:5-8`) as used with a key
function: the returned comparator key maps `x` to the tuple
`(x is None, key(x))` — building the tuple evaluates `key(x)` eagerly,
also when `x` is `None`. -/
def none_last (key : Option ResourcesAndCost → Except PyError ℚ)
    (x : Option ResourcesAndCost) : Except PyError (Bool × ℚ) :=
  match key x with
  | .error e => .error e
  | .ok v => .ok (x.isNone, v)

/-- Python comparison of `(bool, float)` tuples: lexicographic with
`False < True`. -/
def py_key_lt (a b : Bool × ℚ) : Bool :=
  (a.1 = false ∧ b.1 = true : Bool) || ((a.1 = b.1 : Bool) && decide (a.2 < b.2))

/-- The fold of Python's `min(..., key=...)`: the key is applied to every
element; ties keep the earlier element. -/
def py_min_go (key : Option ResourcesAndCost → Except PyError (Bool × ℚ)) :
    List (Option ResourcesAndCost) → Option ResourcesAndCost → (Bool × ℚ) →
    Except PyError (Option ResourcesAndCost)
  | [], best, _ => .ok best
  | x :: xs, best, kb =>
    match key x with
    | .error e => .error e
    | .ok kx =>
      if py_key_lt kx kb then py_min_go key xs x kx else py_min_go key xs best kb

/-- Python `min(iterable, key=...)`: `ValueError` on an empty iterable,
otherwise the fold. -/
def py_min (key : Option ResourcesAndCost → Except PyError (Bool × ℚ)) :
    List (Option ResourcesAndCost) → Except PyError (Option ResourcesAndCost)
  | [] => .error (.valueError ("min() arg is an empty sequence"))
  | x :: xs =>
    match key x with
    | .error e => .error e
    | .ok kx => py_min_go key xs x kx

/-- Embedding of `InstanceCollectionConfigs.select_pool`
(`inst_coll_config.py:196-204`). -/
def select_pool (u : InstUtils) (max_gib : Nat) (pools : List PoolConfig)
    (cores_mcpu : Nat) (memory : MemoryRequest) (storage_bytes : Nat) :
    Except PyError (Option ResourcesAndCost) :=
  py_min (none_last cost_attr)
    (pools.map (fun p =>
      cost_and_resources_from_request u max_gib p cores_mcpu memory storage_bytes))

end HailBatch

namespace HailBatch

/-! # Theorems -/

/-- Helper: the term loop stops at the first unparsable term whenever one
is present, regardless of the accumulator. -/
theorem parse_query_loop_invalid (state_keys : List String) (ts : List String)
    (acc : List (Bool × QueryTermKind))
    (h : ∃ t ∈ ts, parse_query_term state_keys t = none) :
    ∃ t, parse_query_loop state_keys ts acc = .invalidTerm t := by
  induction ts generalizing acc with
  | nil => obtain ⟨t, ht, -⟩ := h; exact absurd ht (List.not_mem_nil t)
  | cons t ts ih =>
    by_cases hh : parse_query_term state_keys t = none
    · exact ⟨t, by simp [parse_query_loop, hh]⟩
    · obtain ⟨u, hu, hun⟩ := h
      rcases List.mem_cons.mp hu with rfl | hu
      · exact absurd hun hh
      · obtain ⟨c, hc⟩ := Option.ne_none_iff_exists'.mp hh
        obtain ⟨v, hv⟩ := ih (acc ++ [c]) ⟨u, hu, hun⟩
        exact ⟨v, by simp [parse_query_loop, hc, hv]⟩

/-- C9: for every batch record, the reported batch state is `open` exactly
when the `closed` flag is false; when closed it is `failure` if
`n_failed > 0`, otherwise `cancelled` if `n_cancelled > 0`, otherwise
`success` if `n_succeeded = n_jobs`, otherwise `running`; and the reported
`complete` field is true exactly when the batch is closed and
`n_completed = n_jobs`. -/
theorem batch_record_to_dict_state_complete (r : BatchRecord) :
    ((batch_record_to_dict r).state = "open" ↔ r.closed = false)
    ∧ (r.closed = true →
        (batch_record_to_dict r).state =
          (if r.n_failed > 0 then ("failure")
           else if r.n_cancelled > 0 then ("cancelled")
           else if r.n_succeeded = r.n_jobs then ("success")
           else ("running")))
    ∧ ((batch_record_to_dict r).complete = true ↔
        (r.closed = true ∧ r.n_completed = r.n_jobs)) := by
  obtain ⟨id, closed, nj, nc, ns, nf, nca⟩ := r
  cases closed <;>
    simp only [batch_record_to_dict, Bool.not_true, Bool.not_false] <;>
    constructor
  · simp
  · constructor
    · intro h; exact absurd h (by simp)
    · simp
  · constructor
    · by_cases hf : nf > 0
      · simp [hf]
      · by_cases hca : nca > 0
        · simp [hf, hca]
        · by_cases hs : ns = nj <;> simp [hf, hca, hs]
    · intro h; exact absurd h (by simp)
  · constructor
    · intro _
      by_cases hf : nf > 0
      · simp [hf]
      · by_cases hca : nca > 0
        · simp [hf, hca]
        · by_cases hs : ns = nj <;> simp [hf, hca, hs]
    · simp

/-- C2: a create-batch request whose `(user, token)` pair already exists in
the batches table (and whose billing-project checks pass) returns the id of
the existing batch and leaves the whole state — in particular the batches
table — unchanged. -/
theorem create_batch_idempotent (st : FrontEndState) (user : String)
    (spec : BatchSpecIn) (bp : BillingProject) (row : BatchesRow)
    (hbp : query_billing_projects st.billing_projects user spec.billing_project = [bp])
    (hstatus : ¬ (bp.status = "closed" ∨ bp.status = "deleted"))
    (hlimit : ∀ l, bp.limit = some l → bp.accrued_cost < l)
    (hfind : st.batches.find? (fun b => b.token == spec.token && b.user == user) = some row) :
    create_batch st user spec = (st, .ok row.id) ∧
    row ∈ st.batches ∧ row.user = user ∧ row.token = spec.token := by
  have hmem : row ∈ st.batches := List.mem_of_find?_eq_some hfind
  have hrow := List.find?_some hfind
  simp only [Bool.and_eq_true, beq_iff_eq] at hrow
  refine ⟨?_, hmem, hrow.2, hrow.1⟩
  have hover : (match bp.limit with
      | some l => decide (bp.accrued_cost ≥ l)
      | none => false) = false := by
    cases hl : bp.limit with
    | none => rfl
    | some l => simpa using not_le.mpr (hlimit l hl)
  simp [create_batch, hbp, hstatus, hover, hfind]

/-- Witness for C2: a state with one existing batch for `("alice", "t7")`. -/
theorem create_batch_idempotent_witness :
    create_batch
      { batches := [⟨5, "alice", "bp", "t7", "open", 3, false⟩],
        batch_attributes := [], next_batch_id := 6,
        billing_projects := [⟨"bp", ["alice"], "open", none, 0⟩] }
      "alice" ⟨"bp", "t7", 3, []⟩ =
      ({ batches := [⟨5, "alice", "bp", "t7", "open", 3, false⟩],
         batch_attributes := [], next_batch_id := 6,
         billing_projects := [⟨"bp", ["alice"], "open", none, 0⟩] }, .ok 5) ∧
    (⟨5, "alice", "bp", "t7", "open", 3, false⟩ : BatchesRow) ∈
      [(⟨5, "alice", "bp", "t7", "open", 3, false⟩ : BatchesRow)] ∧
    ("alice" : String) = "alice" ∧ ("t7" : String) = "t7" :=
  create_batch_idempotent
    { batches := [⟨5, "alice", "bp", "t7", "open", 3, false⟩],
      batch_attributes := [], next_batch_id := 6,
      billing_projects := [⟨"bp", ["alice"], "open", none, 0⟩] }
    "alice" ⟨"bp", "t7", 3, []⟩ ⟨"bp", ["alice"], "open", none, 0⟩
    ⟨5, "alice", "bp", "t7", "open", 3, false⟩
    (by decide) (by decide) (by intro l hl; cases hl) (by decide)

/-- C4: when the actual inserted job count differs from the declared
`n_jobs`, close-batch fails with HTTP 400 whose reason is exactly
`wrong number of jobs: expected N, actual M` and leaves the state (hence
the batch, still open) unchanged; and on any state where the counts agree
(in particular after inserting the missing jobs) closing succeeds and the
batch's state becomes `running`. -/
theorem close_batch_wrong_number_of_jobs (st : CloseBatchState) (user : String)
    (batch_id now : Nat) (b : BatchesRow)
    (hfind : st.batches.find? (fun r => r.user == user && r.id == batch_id && !r.deleted) = some b)
    (hfind2 : st.batches.find? (fun r => r.id == batch_id) = some b)
    (hmismatch : job_count st batch_id ≠ b.n_jobs) :
    close_batch st user batch_id now =
      (st, .error (.badRequest
        ("wrong number of jobs: expected " ++ Nat.repr b.n_jobs ++
          ", actual " ++ Nat.repr (job_count st batch_id)))) ∧
    (∀ st2 b2,
      st2.batches.find? (fun r => r.user == user && r.id == batch_id && !r.deleted) = some b2 →
      st2.batches.find? (fun r => r.id == batch_id) = some b2 →
      job_count st2 batch_id = b2.n_jobs →
      (close_batch st2 user batch_id now).2 = .ok () ∧
      (∀ r ∈ (close_batch st2 user batch_id now).1.batches,
        r.id = batch_id → r.state = "running")) := by
  constructor
  · simp [close_batch, close_batch_proc, hfind, hfind2, hmismatch]
  · intro st2 b2 h1 h2 h3
    have hok : close_batch st2 user batch_id now =
        ({ st2 with
            batches := st2.batches.map
              (fun r => if r.id == batch_id then { r with state := ("running") } else r) },
          .ok ()) := by
      simp [close_batch, close_batch_proc, h1, h2, h3]
    refine ⟨by rw [hok], ?_⟩
    intro r hr hrid
    rw [hok] at hr
    simp only [List.mem_map] at hr
    obtain ⟨r0, -, hr0⟩ := hr
    by_cases h : r0.id = batch_id
    · rw [← hr0]; simp [h]
    · rw [← hr0] at hrid ⊢
      simp only [beq_iff_eq, if_neg h] at hrid ⊢
      exact absurd hrid h

/-- Witness for C4: declared 5 jobs, 4 inserted — close fails with
`wrong number of jobs: expected 5, actual 4`; after inserting the 5th job
closing succeeds and the batch runs. -/
theorem close_batch_wrong_number_of_jobs_witness :
    (close_batch ⟨[⟨1, "alice", "bp", "t", "open", 5, false⟩],
        [(1, 1), (1, 2), (1, 3), (1, 4)]⟩ "alice" 1 99 =
      (⟨[⟨1, "alice", "bp", "t", "open", 5, false⟩],
        [(1, 1), (1, 2), (1, 3), (1, 4)]⟩,
        .error (.badRequest
          ("wrong number of jobs: expected " ++ Nat.repr 5 ++
            ", actual " ++ Nat.repr (job_count ⟨[⟨1, "alice", "bp", "t", "open", 5, false⟩],
              [(1, 1), (1, 2), (1, 3), (1, 4)]⟩ 1))))) ∧
    ((close_batch ⟨[⟨1, "alice", "bp", "t", "open", 5, false⟩],
        [(1, 1), (1, 2), (1, 3), (1, 4), (1, 5)]⟩ "alice" 1 99).2 = .ok () ∧
      (∀ r ∈ (close_batch ⟨[⟨1, "alice", "bp", "t", "open", 5, false⟩],
          [(1, 1), (1, 2), (1, 3), (1, 4), (1, 5)]⟩ "alice" 1 99).1.batches,
        r.id = 1 → r.state = "running")) := by
  have h := close_batch_wrong_number_of_jobs
    ⟨[⟨1, "alice", "bp", "t", "open", 5, false⟩], [(1, 1), (1, 2), (1, 3), (1, 4)]⟩
    "alice" 1 99 ⟨1, "alice", "bp", "t", "open", 5, false⟩
    (by decide) (by decide) (by decide)
  exact ⟨h.1, h.2 ⟨[⟨1, "alice", "bp", "t", "open", 5, false⟩],
    [(1, 1), (1, 2), (1, 3), (1, 4), (1, 5)]⟩
    ⟨1, "alice", "bp", "t", "open", 5, false⟩ (by decide) (by decide) (by decide)⟩

/-- C1: evaluating the code at a failing input.  Job `(1, 1)` is already in
the terminal state `Success`; replaying `mark_job_complete` for it does not
no-op returning the prior terminal state — it raises
`TypeError: argument of type 'coroutine' is not subscriptable`, because
`batch.py:117` binds `rv = retry_deadlock(f)` without `await` (contrast
`await retry_deadlock(f)` at `batch.py:158`).  With the missing `await`
restored, the replay is the claimed no-op: the procedure returns the prior
terminal state `Success` and the app state — database, instance free
cores, callback record — is unchanged. -/
theorem mark_job_complete_terminal_replay_type_error :
    mark_job_complete
      ⟨⟨[⟨1, 1, "Success", 1000, some ("inst1")⟩]⟩, [⟨"inst1", 8000⟩], false, []⟩
      1 1 "a1b2c3" "Success" =
      .error (.typeError ("argument of type 'coroutine' is not subscriptable")) ∧
    ("Success" ∈ complete_states) ∧
    mark_job_complete_awaited
      ⟨⟨[⟨1, 1, "Success", 1000, some ("inst1")⟩]⟩, [⟨"inst1", 8000⟩], false, []⟩
      1 1 "a1b2c3" "Success" =
      .ok (⟨⟨[⟨1, 1, "Success", 1000, some ("inst1")⟩]⟩, [⟨"inst1", 8000⟩], false, []⟩,
        ⟨"Success", 1000, some ("inst1")⟩) := by
  refine ⟨rfl, by decide, ?_⟩
  rfl

/-- C10: evaluating the code at a failing input.  With a single 16-core
pool and a request for 200 cores, no configured pool can satisfy the
request, so the claim demands `select_pool = None`; instead the call
raises `AttributeError`: `none_last(lambda x: x.cost)` builds the tuple
`(x is None, x.cost)` eagerly, so `min`'s key evaluates `None.cost`.
(`select_pool` can therefore never return `None` over a nonempty pool
collection, contradicting its `Optional` annotation and the purpose of
`none_last`.) -/
theorem select_pool_attribute_error :
    convert_requests_to_resources
      ⟨fun c _ _ => c, fun c => c, fun c _ => c, fun _ _ _ => 1⟩ 65536
      ⟨"standard", "standard", 16⟩ 200000 (.bytes 0) 0 = none ∧
    select_pool
      ⟨fun c _ _ => c, fun c => c, fun c _ => c, fun _ _ _ => 1⟩ 65536
      [⟨"standard", "standard", 16⟩] 200000 (.bytes 0) 0 =
      .error (.attributeError ("'NoneType' object has no attribute 'cost'")) := by
  constructor <;> rfl

/-- The checks of one `create_jobs` loop iteration other than the
satisfiability check: nonzero cpu, known worker type, authorized secrets,
authorized service account, authorized network. -/
def passes_other_checks (ctx : CreateJobsCtx) (s : JobSpecIn) : Prop :=
  s.req_cores_mcpu ≠ 0 ∧
  (ctx.pool_selector s.worker_type).isSome = true ∧
  (s.secrets = [] ∨ ctx.user = "ci") ∧
  check_service_account_permissions ctx.user ctx.default_namespace s.service_account = .ok () ∧
  (ctx.user = "ci" ∨ s.network = none ∨ s.network = some ("public"))

/-- A job whose adjusted cores exceed what the selected pool's workers
offer. -/
def unsatisfiable_spec (ctx : CreateJobsCtx) (s : JobSpecIn) : Prop :=
  ∃ pool, ctx.pool_selector s.worker_type = some pool ∧
    effective_cores_mcpu ctx pool s > pool.worker_cores * 1000

/-- Helper: under the per-job checks, the job loop fails with the
unsatisfiable-resources 400 as soon as the bunch contains an unsatisfiable
job. -/
theorem create_jobs_build_unsat (ctx : CreateJobsCtx) (batch_id : Nat)
    (specs : List JobSpecIn) (st : BuildState)
    (hprev : ∀ s0, specs.head? = some s0 → prev_truthy st.prev_job_idx = true →
      s0.job_id = st.prev_job_idx.getD 0 + 1)
    (hchain : specs.Chain' (fun a b => b.job_id = a.job_id + 1))
    (hok : ∀ s ∈ specs, passes_other_checks ctx s)
    (hun : ∃ s ∈ specs, unsatisfiable_spec ctx s) :
    ∃ s ∈ specs, ∃ pool, ctx.pool_selector s.worker_type = some pool ∧
      effective_cores_mcpu ctx pool s > pool.worker_cores * 1000 ∧
      create_jobs_build ctx batch_id st specs =
        .error (.badRequest (unsatisfiable_reason batch_id s pool ctx)) := by
  induction specs generalizing st with
  | nil => obtain ⟨s, hs, -⟩ := hun; exact absurd hs (List.not_mem_nil s)
  | cons s ss ih =>
    obtain ⟨hcpu, hpoolsome, hsec, hsa, hnet⟩ := hok s (List.mem_cons_self s ss)
    have hcont : ¬ (ctx.has_full_spec_in_gcs = true ∧
        prev_truthy st.prev_job_idx = true ∧
        s.job_id ≠ st.prev_job_idx.getD 0 + 1) := by
      rintro ⟨-, h2, h3⟩
      exact h3 (hprev s rfl h2)
    obtain ⟨pool, hpool⟩ := Option.isSome_iff_exists.mp hpoolsome
    have hsecb : ¬ (s.secrets ≠ [] ∧ ctx.user ≠ "ci") := by
      rcases hsec with h | h
      · rintro ⟨h1, -⟩; exact h1 h
      · rintro ⟨-, h2⟩; exact h2 h
    have hnetb : ¬ (ctx.user ≠ "ci" ∧
        ¬ (s.network = none ∨ s.network = some ("public"))) := by
      rcases hnet with h | h
      · rintro ⟨h1, -⟩; exact h1 h
      · rintro ⟨-, h2⟩; exact h2 h
    by_cases hs : unsatisfiable_spec ctx s
    · obtain ⟨pool', hpool', hgt⟩ := hs
      refine ⟨s, List.mem_cons_self s ss, pool', hpool', hgt, ?_⟩
      have hproc : process_job_spec ctx batch_id st s =
          .error (.badRequest (unsatisfiable_reason batch_id s pool' ctx)) := by
        simp only [process_job_spec, if_neg hcont, if_neg hcpu, hpool']
        rw [if_pos hgt]
      simp [create_jobs_build, hproc]
    · have hle : ¬ effective_cores_mcpu ctx pool s > pool.worker_cores * 1000 := by
        intro hgt
        exact hs ⟨pool, hpool, hgt⟩
      have hproc : ∃ st2, process_job_spec ctx batch_id st s = .ok st2 ∧
          st2.prev_job_idx = some s.job_id := by
        simp only [process_job_spec, if_neg hcont, if_neg hcpu, hpool,
          if_neg hle, if_neg hsecb, hsa, if_neg hnetb]
        exact ⟨_, rfl, rfl⟩
      obtain ⟨st2, hp, hprev2⟩ := hproc
      have hun' : ∃ u ∈ ss, unsatisfiable_spec ctx u := by
        obtain ⟨u, hu, huu⟩ := hun
        rcases List.mem_cons.mp hu with rfl | hu
        · exact absurd huu hs
        · exact ⟨u, hu, huu⟩
      have hch' : ss.Chain' (fun a b => b.job_id = a.job_id + 1) := hchain.tail
      have hpr2 : ∀ s0, ss.head? = some s0 → prev_truthy st2.prev_job_idx = true →
          s0.job_id = st2.prev_job_idx.getD 0 + 1 := by
        rintro s0 hh -
        rw [hprev2]
        cases ss with
        | nil => cases hh
        | cons s1 ss1 =>
          obtain rfl : s1 = s0 := by injection hh
          simpa using (List.chain'_cons.mp hchain).1
      obtain ⟨u, hu, pool2, h1, h2, h3⟩ :=
        ih st2 hpr2 hch' (fun t ht => hok t (List.mem_cons_of_mem s ht)) hun'
      exact ⟨u, List.mem_cons_of_mem s hu, pool2, h1, h2, by
        simp [create_jobs_build, hp, h3]⟩

/-- C3: a create-jobs bunch containing a job whose adjusted `cores_mcpu`
exceeds `worker_cores * 1000` for the selected pool (while every job in
the bunch passes the other validations) fails with HTTP 400 reporting that
the resource requests are unsatisfiable, and atomically: the database —
jobs, parents, attributes, and the per-(batch, pool) staging counters — is
unchanged, the failure occurring before the insert transaction. -/
theorem create_jobs_unsatisfiable (ctx : CreateJobsCtx) (db : JobsDB)
    (b : BatchesRow) (batch_id : Nat) (specs : List JobSpecIn)
    (rand_token : Nat) (swt : String)
    (hopen : b.state = "open")
    (hchain : specs.Chain' (fun a b => b.job_id = a.job_id + 1))
    (hok : ∀ s ∈ specs, passes_other_checks ctx s)
    (hun : ∃ s ∈ specs, unsatisfiable_spec ctx s) :
    ∃ s ∈ specs, ∃ pool, ctx.pool_selector s.worker_type = some pool ∧
      effective_cores_mcpu ctx pool s > pool.worker_cores * 1000 ∧
      create_jobs ctx db (some b) batch_id specs rand_token swt =
        (db, .error (.badRequest (unsatisfiable_reason batch_id s pool ctx))) := by
  have hprev : ∀ s0, specs.head? = some s0 →
      prev_truthy initial_build_state.prev_job_idx = true →
      s0.job_id = initial_build_state.prev_job_idx.getD 0 + 1 := by
    rintro s0 - h
    cases h
  obtain ⟨s, hs, pool, h1, h2, h3⟩ :=
    create_jobs_build_unsat ctx batch_id specs initial_build_state hprev hchain hok hun
  refine ⟨s, hs, pool, h1, h2, ?_⟩
  simp [create_jobs, hopen, h3]

/-- Witness for C3: spec scenario 5 — one job requesting 200 cores on a
16-core `standard` pool, with identity adjustments. -/
theorem create_jobs_unsatisfiable_witness :
    ∃ s ∈ [(⟨1, [], false, [], 200000, 0, 0, "standard", [], none, none, false⟩ : JobSpecIn)],
      ∃ pool,
        (⟨⟨fun c _ _ => c, fun c _ _ _ _ => c, fun c => c, fun _ => 3840, fun _ _ => 100⟩,
          fun wt => if wt = "standard" then some ⟨"standard", "standard", 16, true, 0⟩ else none,
          "alice", "default", false⟩ : CreateJobsCtx).pool_selector s.worker_type = some pool ∧
        effective_cores_mcpu
          ⟨⟨fun c _ _ => c, fun c _ _ _ _ => c, fun c => c, fun _ => 3840, fun _ _ => 100⟩,
            fun wt => if wt = "standard" then some ⟨"standard", "standard", 16, true, 0⟩ else none,
            "alice", "default", false⟩ pool s > pool.worker_cores * 1000 ∧
        create_jobs
          ⟨⟨fun c _ _ => c, fun c _ _ _ _ => c, fun c => c, fun _ => 3840, fun _ _ => 100⟩,
            fun wt => if wt = "standard" then some ⟨"standard", "standard", 16, true, 0⟩ else none,
            "alice", "default", false⟩
          ⟨[], [], [], [], [], []⟩
          (some ⟨1, "alice", "bp", "t", "open", 1, false⟩) 1
          [⟨1, [], false, [], 200000, 0, 0, "standard", [], none, none, false⟩] 0 "tok" =
          (⟨[], [], [], [], [], []⟩,
            .error (.badRequest (unsatisfiable_reason 1 s pool
              ⟨⟨fun c _ _ => c, fun c _ _ _ _ => c, fun c => c, fun _ => 3840, fun _ _ => 100⟩,
                fun wt => if wt = "standard" then some ⟨"standard", "standard", 16, true, 0⟩ else none,
                "alice", "default", false⟩))) := by
  refine create_jobs_unsatisfiable _ _ _ 1 _ 0 "tok" rfl (List.chain'_singleton _) ?_ ?_
  · intro s hs
    simp only [List.mem_singleton] at hs
    subst hs
    refine ⟨by norm_num, by simp, Or.inl rfl, rfl, Or.inr (Or.inl rfl)⟩
  · exact ⟨_, List.mem_singleton_self _, ⟨"standard", "standard", 16, true, 0⟩, by simp,
      by simp [effective_cores_mcpu]⟩

/-- C5: when the insert of a replayed bunch collides on its first
`(batch_id, job_id)` primary key, the transaction returns success and
changes nothing — no jobs, job parents, attributes, or staging-counter
increments; by contrast, a bunch whose `job_parents` rows contain a
duplicate (no jobs collision) fails with HTTP 400. -/
theorem create_jobs_insert_idempotent
    (db : JobsDB) (batch_id : Nat) (jobs_args : List JobsArgsRow)
    (pargs : List (Nat × Nat × Nat)) (aargs : List (Nat × Nat × String × String))
    (icr : List (String × ICRCounters)) (tok : Nat) (full : Bool)
    (swt : String) (sj : Option Nat) :
    (∀ r0 rest, jobs_args = r0 :: rest →
      (r0.batch_id, r0.job_id) ∈ jobs_keys db.jobs →
      create_jobs_insert db batch_id jobs_args pargs aargs icr tok full swt sj =
        (db, .committed)) ∧
    (insert_many_ok (jobs_keys db.jobs) (jobs_keys jobs_args) →
      ¬ insert_many_ok db.job_parents pargs →
      create_jobs_insert db batch_id jobs_args pargs aargs icr tok full swt sj =
        (db, .badRequest ("bunch contains job with duplicated parents"))) := by
  constructor
  · intro r0 rest hargs hdup
    have hnot : ¬ insert_many_ok (jobs_keys db.jobs) (jobs_keys jobs_args) := by
      intro h
      obtain ⟨-, hall⟩ := h
      exact hall (r0.batch_id, r0.job_id) (by simp [hargs, jobs_keys]) hdup
    simp [create_jobs_insert, hnot]
  · intro hok hpdup
    simp [create_jobs_insert, hok, hpdup]

/-- Witness for C5: a replayed single-job bunch for the existing job
`(1, 1)` commits as a no-op, and a fresh bunch with job `(1, 2)` listing
parent 1 twice is rejected. -/
theorem create_jobs_insert_idempotent_witness :
    (create_jobs_insert
      ⟨[⟨1, 1, "Ready", ⟨1, [], false, [], 1000, 0, 0, "standard", [], none, none, false⟩,
          false, 1000, 0, "standard"⟩], [], [], [], [], []⟩
      1
      [⟨1, 1, "Ready", ⟨1, [], false, [], 1000, 0, 0, "standard", [], none, none, false⟩,
          false, 1000, 0, "standard"⟩]
      [] [] [("standard", ⟨1, 1, 1000, 1, 1000⟩)] 0 false "tok" (some 1) =
      (⟨[⟨1, 1, "Ready", ⟨1, [], false, [], 1000, 0, 0, "standard", [], none, none, false⟩,
          false, 1000, 0, "standard"⟩], [], [], [], [], []⟩, .committed)) ∧
    (create_jobs_insert
      ⟨[⟨1, 1, "Ready", ⟨1, [], false, [], 1000, 0, 0, "standard", [], none, none, false⟩,
          false, 1000, 0, "standard"⟩], [], [], [], [], []⟩
      1
      [⟨1, 2, "Pending", ⟨2, [1, 1], false, [], 1000, 0, 0, "standard", [], none, none, false⟩,
          false, 1000, 2, "standard"⟩]
      [(1, 2, 1), (1, 2, 1)] [] [("standard", ⟨1, 0, 0, 0, 0⟩)] 0 false "tok" (some 2) =
      (⟨[⟨1, 1, "Ready", ⟨1, [], false, [], 1000, 0, 0, "standard", [], none, none, false⟩,
          false, 1000, 0, "standard"⟩], [], [], [], [], []⟩,
        .badRequest ("bunch contains job with duplicated parents"))) := by
  constructor
  · exact (create_jobs_insert_idempotent _ 1 _ [] [] _ 0 false "tok" (some 1)).1
      _ _ rfl (by decide)
  · exact (create_jobs_insert_idempotent _ 1 _ _ [] _ 0 false "tok" (some 2)).2
      (by decide) (by decide)

/-- C7 counterexample: a query containing the unrecognised term `"bogus"`
does not fail with HTTP 400 — both list endpoints answer with status 200
and an empty page (`_query_batches` / `_query_batch_jobs` set a session
message and return `([], None)` instead of raising). -/
theorem unknown_query_term_counterexample :
    (get_batches_endpoint (fun _ => [⟨7, false, 0, 0, 0, 0, 0⟩]) "bogus").status = 200 ∧
    (get_jobs_endpoint (fun _ => [3]) "bogus").status = 200 ∧
    (get_batches_endpoint (fun _ => [⟨7, false, 0, 0, 0, 0, 0⟩]) "bogus").status ≠ 400 := by
  refine ⟨rfl, rfl, by decide⟩

/-- C7 amended: for every list request whose query contains a
whitespace-separated term that is not an optionally `'!'`-prefixed
`key=value` match, `has:key` match, or recognised state keyword for that
endpoint, the endpoint does not fail: it returns HTTP 200 with an empty
result page (and a session error message), whatever rows the database
would have produced. -/
theorem unknown_query_term_yields_empty_page (q : String)
    (runb : List (Bool × QueryTermKind) → List BatchRecord)
    (runj : List (Bool × QueryTermKind) → List Nat)
    (hb : ∃ t ∈ query_terms q, parse_query_term batch_state_query_keys t = none)
    (hj : ∃ t ∈ query_terms q, parse_query_term job_state_query_keys t = none) :
    get_batches_endpoint runb q = { status := 200, items := [] } ∧
    get_jobs_endpoint runj q = { status := 200, items := [] } := by
  obtain ⟨tb, htb⟩ := parse_query_loop_invalid batch_state_query_keys (query_terms q) [] hb
  obtain ⟨tj, htj⟩ := parse_query_loop_invalid job_state_query_keys (query_terms q) [] hj
  constructor
  · simp [get_batches_endpoint, htb]
  · simp [get_jobs_endpoint, htj]

/-- Witness for C7 amended: evaluated at the query `"bogus"`. -/
theorem unknown_query_term_yields_empty_page_witness :
    (∃ t ∈ query_terms "bogus", parse_query_term batch_state_query_keys t = none) ∧
    (∃ t ∈ query_terms "bogus", parse_query_term job_state_query_keys t = none) ∧
    (get_batches_endpoint (fun _ => []) "bogus" = { status := 200, items := [] } ∧
     get_jobs_endpoint (fun _ => []) "bogus" = { status := 200, items := [] }) := by
  have hb : ∃ t ∈ query_terms "bogus",
      parse_query_term batch_state_query_keys t = none := ⟨"bogus", by decide, by decide⟩
  have hj : ∃ t ∈ query_terms "bogus",
      parse_query_term job_state_query_keys t = none := ⟨"bogus", by decide, by decide⟩
  exact ⟨hb, hj, unknown_query_term_yields_empty_page "bogus" (fun _ => []) (fun _ => []) hb hj⟩

/-- C6 counterexample: for a requested size of 0 bytes the code returns 0
GiB (`inst_coll_config.py:36-37` returns `storage_bytes` itself when it is
0), not the claimed `max(10, ceil(0 / 2^30)) = 10`. -/
theorem storage_gib_zero_counterexample :
    requested_storage_bytes_to_actual_storage_gib 65536 0 = some 0 ∧
    max 10 ((0 + 2 ^ 30 - 1) / 2 ^ 30) = 10 ∧
    requested_storage_bytes_to_actual_storage_gib 65536 0 ≠ some 10 := by
  refine ⟨?_, by norm_num, ?_⟩ <;>
    simp [requested_storage_bytes_to_actual_storage_gib]

/-- C6 amended: for every requested size `b` with `0 < b` that does not
exceed the maximum persistent-SSD size, the effective provisioned storage is
`b` rounded up to whole gibibytes with a floor of 10 GiB,
`max 10 (ceil (b / 2^30))`; a request of exactly 0 bytes yields 0. -/
theorem storage_gib_rounding (maxGib b : Nat) (h0 : 0 < b)
    (hmax : b ≤ maxGib * 1024 ^ 3) :
    requested_storage_bytes_to_actual_storage_gib maxGib b =
      some (max 10 ((b + 2 ^ 30 - 1) / 2 ^ 30)) := by
  unfold requested_storage_bytes_to_actual_storage_gib round_storage_bytes_to_gib
  rw [if_neg (by omega), if_neg (by omega)]

/-- Witness for C6 amended: evaluated at `b = 1`, `maxGib = 64`. -/
theorem storage_gib_rounding_witness :
    requested_storage_bytes_to_actual_storage_gib 64 1 =
      some (max 10 ((1 + 2 ^ 30 - 1) / 2 ^ 30)) :=
  storage_gib_rounding 64 1 (by norm_num) (by norm_num)

/-- C8 counterexample: attempt ids are drawn independently for each
scheduling, but nothing makes the draw after an instance loss distinct from
the lost attempt's id: under the random stream that always picks index 0,
the first scheduling (stream positions 0-5) and the re-scheduling after the
loss (stream positions 6-11) both produce the attempt id `"aaaaaa"`. -/
theorem schedule_attempt_id_collision_counterexample :
    schedule_attempt_id (fun _ => (0 : Fin 36)) 0 =
      schedule_attempt_id (fun _ => (0 : Fin 36)) 6 ∧
    schedule_attempt_id (fun _ => (0 : Fin 36)) 0 = "aaaaaa" := by
  constructor <;> rfl

/-- C8 amended: every attempt id produced by `schedule_job` is exactly 6
characters long, each drawn from the lowercase letters and digits, and each
scheduling draws its 6 characters fresh from the random stream (positions
`pos`..`pos+5`); equality with a previously drawn id is possible, so
distinctness after an instance loss is not guaranteed. -/
theorem schedule_attempt_id_shape (rand : Nat → Fin 36) (pos : Nat) :
    (schedule_attempt_id rand pos).length = 6 ∧
    (∀ c ∈ (schedule_attempt_id rand pos).toList, c ∈ attempt_id_chars) ∧
    schedule_attempt_id rand pos =
      String.mk ((List.range 6).map
        (fun k => attempt_id_chars.getD (rand (pos + k)).val 'a')) := by
  refine ⟨?_, ?_, rfl⟩
  · simp [schedule_attempt_id, String.length]
  · intro c hc
    simp only [schedule_attempt_id, String.toList, List.mem_map] at hc
    obtain ⟨k, -, hk⟩ := hc
    have hlt : (rand (pos + k)).val < attempt_id_chars.length :=
      (rand (pos + k)).isLt
    rw [← hk, List.getD_eq_getElem _ _ hlt]
    exact List.getElem_mem _

/-- Witness for C8 amended: the theorem applied at the constant stream and
position 0 (`∀`-hypotheses on the stream discharged by instantiation). -/
theorem schedule_attempt_id_shape_witness :
    (schedule_attempt_id (fun _ => (0 : Fin 36)) 0).length = 6 ∧
    (∀ c ∈ (schedule_attempt_id (fun _ => (0 : Fin 36)) 0).toList,
      c ∈ attempt_id_chars) ∧
    schedule_attempt_id (fun _ => (0 : Fin 36)) 0 =
      String.mk ((List.range 6).map
        (fun k => attempt_id_chars.getD ((fun _ => (0 : Fin 36)) (0 + k)).val 'a')) :=
  schedule_attempt_id_shape (fun _ => (0 : Fin 36)) 0

/-- Witness for C9: the theorem applied at a concrete record. -/
theorem batch_record_to_dict_state_complete_witness :
    (((batch_record_to_dict ⟨1, true, 3, 3, 2, 1, 0⟩).state = "open" ↔
        (⟨1, true, 3, 3, 2, 1, 0⟩ : BatchRecord).closed = false)
    ∧ ((⟨1, true, 3, 3, 2, 1, 0⟩ : BatchRecord).closed = true →
        (batch_record_to_dict ⟨1, true, 3, 3, 2, 1, 0⟩).state =
          (if (1 : Nat) > 0 then ("failure")
           else if (0 : Nat) > 0 then ("cancelled")
           else if (2 : Nat) = 3 then ("success")
           else ("running")))
    ∧ ((batch_record_to_dict ⟨1, true, 3, 3, 2, 1, 0⟩).complete = true ↔
        ((⟨1, true, 3, 3, 2, 1, 0⟩ : BatchRecord).closed = true ∧
          (⟨1, true, 3, 3, 2, 1, 0⟩ : BatchRecord).n_completed = 3))) :=
  batch_record_to_dict_state_complete ⟨1, true, 3, 3, 2, 1, 0⟩

end HailBatch
